import Mathlib

/-!
Verification of the Kirby AP mailbox payload (`ap_payload.c`).

The C file consists of two functions operating on a fixed set of memory
locations: `ap_apply_item`, which maps an item identifier to a bounded
game-state mutation, and `ap_poll_mailbox_c`, which polls the shared
mailbox and dispatches at most one pending item per call.

We embed the memory locations touched by the code as a record `APState`
(each 32-bit mailbox register and each single-byte game-state location is
one field, held as a `Nat` reduced modulo the width where the C code can
overflow), and the two C functions as pure state transformers.
-/

/-- `KIRBY_BASE_OFFSET` from `ap_payload.c`: the item-identifier base. -/
def KIRBY_BASE_OFFSET : Nat := 3860000

/-- Modulus of a 32-bit unsigned word. -/
def UINT32_MOD : Nat := 4294967296

/-- Modulus of an 8-bit unsigned byte. -/
def UINT8_MOD : Nat := 256

/-- The memory locations read or written by `ap_payload.c`:
the seven 32-bit mailbox registers at `AP_BASE + 0x00 .. 0x18`, plus the
two single-byte game-state locations `KIRBY_SHARD_FLAGS` and
`KIRBY_LIVES`. -/
structure APState where
  /-- `AP_SHARD_BITFIELD`, the register at `AP_BASE + 0x00` (debug mirror). -/
  shardBitfieldMirror : Nat
  /-- `AP_IN_FLAG`, the register at `AP_BASE + 0x04` (pending flag). -/
  pendingFlag : Nat
  /-- `AP_IN_ITEM_ID`, the register at `AP_BASE + 0x08`. -/
  itemID : Nat
  /-- `AP_IN_PLAYER`, the register at `AP_BASE + 0x0C` (sender). -/
  senderID : Nat
  /-- `AP_DEBUG_HEARTBEAT`, the register at `AP_BASE + 0x10`. -/
  debugHeartbeat : Nat
  /-- `AP_DEBUG_LAST_ITEM_ID`, the register at `AP_BASE + 0x14`. -/
  debugLastItemID : Nat
  /-- `AP_DEBUG_LAST_FROM`, the register at `AP_BASE + 0x18`. -/
  debugLastSender : Nat
  /-- `KIRBY_SHARD_FLAGS`, the byte at `0x02038970`. -/
  shardFlags : Nat
  /-- `KIRBY_LIVES`, the byte at `0x02020FE2`. -/
  lives : Nat
deriving DecidableEq, Repr

/-- Embedding of `static void ap_apply_item(uint32_t ap_item_id)`:

```
if (ap_item_id == (KIRBY_BASE_OFFSET + 1u)) {
    uint8_t lives = KIRBY_LIVES;
    if (lives < 255u) { KIRBY_LIVES = (uint8_t)(lives + 1u); }
    return;
}
if (ap_item_id >= (KIRBY_BASE_OFFSET + 2u) && ap_item_id <= (KIRBY_BASE_OFFSET + 9u)) {
    uint32_t shard_index = ap_item_id - (KIRBY_BASE_OFFSET + 2u);
    uint8_t mask = (uint8_t)(1u << shard_index);
    AP_SHARD_BITFIELD |= (uint32_t)mask;
    KIRBY_SHARD_FLAGS |= mask;
    return;
}
```
-/
def ap_apply_item (ap_item_id : Nat) (s : APState) : APState :=
  if ap_item_id = KIRBY_BASE_OFFSET + 1 then
    let lives := s.lives
    if lives < 255 then
      { s with lives := (lives + 1) % UINT8_MOD }
    else
      s
  else if KIRBY_BASE_OFFSET + 2 ≤ ap_item_id ∧ ap_item_id ≤ KIRBY_BASE_OFFSET + 9 then
    let shard_index := ap_item_id - (KIRBY_BASE_OFFSET + 2)
    let mask := (1 <<< shard_index) % UINT8_MOD
    { s with
      shardBitfieldMirror := s.shardBitfieldMirror ||| mask,
      shardFlags := s.shardFlags ||| mask }
  else
    s

/-- Embedding of `void ap_poll_mailbox_c(void)`:

```
if (AP_IN_FLAG != 1u) return;
AP_DEBUG_HEARTBEAT++;
uint32_t item = AP_IN_ITEM_ID;
uint32_t from = AP_IN_PLAYER;
AP_DEBUG_LAST_ITEM_ID = item;
AP_DEBUG_LAST_FROM = from;
ap_apply_item(item);
AP_IN_FLAG = 0u;
```
-/
def ap_poll_mailbox_c (s : APState) : APState :=
  if s.pendingFlag ≠ 1 then
    s
  else
    let s1 := { s with debugHeartbeat := (s.debugHeartbeat + 1) % UINT32_MOD }
    let item := s1.itemID
    let sender := s1.senderID
    let s2 := { s1 with debugLastItemID := item, debugLastSender := sender }
    let s3 := ap_apply_item item s2
    { s3 with pendingFlag := 0 }

/-- The scenario from the spec, checked concretely: starting from
`Lives = 3, ShardFlags = 0`, item `BaseOffset+1` gives `Lives = 4`,
then `BaseOffset+2` gives `ShardFlags = 1`, then `BaseOffset+9`
gives `ShardFlags = 0b10000001`, and item `999999` changes nothing. -/
example :
    let s0 : APState := ⟨0, 0, 0, 0, 0, 0, 0, 0, 3⟩
    let s1 := ap_apply_item (KIRBY_BASE_OFFSET + 1) s0
    let s2 := ap_apply_item (KIRBY_BASE_OFFSET + 2) s1
    let s3 := ap_apply_item (KIRBY_BASE_OFFSET + 9) s2
    let s4 := ap_apply_item 999999 s3
    s1.lives = 4 ∧ s2.shardFlags = 1 ∧ s3.shardFlags = 129 ∧ s4 = s3 := by
  decide

/-! ### Frame lemmas for `ap_apply_item` -/

/-- `ap_apply_item` never writes the pending flag. -/
lemma ap_apply_item_pendingFlag (id : Nat) (s : APState) :
    (ap_apply_item id s).pendingFlag = s.pendingFlag := by
  simp only [ap_apply_item]
  split
  · split <;> rfl
  · split <;> rfl

/-- `ap_apply_item` never writes the inbound item register. -/
lemma ap_apply_item_itemID (id : Nat) (s : APState) :
    (ap_apply_item id s).itemID = s.itemID := by
  simp only [ap_apply_item]
  split
  · split <;> rfl
  · split <;> rfl

/-- `ap_apply_item` never writes the inbound sender register. -/
lemma ap_apply_item_senderID (id : Nat) (s : APState) :
    (ap_apply_item id s).senderID = s.senderID := by
  simp only [ap_apply_item]
  split
  · split <;> rfl
  · split <;> rfl

/-- `ap_apply_item` never writes the heartbeat register. -/
lemma ap_apply_item_debugHeartbeat (id : Nat) (s : APState) :
    (ap_apply_item id s).debugHeartbeat = s.debugHeartbeat := by
  simp only [ap_apply_item]
  split
  · split <;> rfl
  · split <;> rfl

/-- `ap_apply_item` never writes the last-item debug register. -/
lemma ap_apply_item_debugLastItemID (id : Nat) (s : APState) :
    (ap_apply_item id s).debugLastItemID = s.debugLastItemID := by
  simp only [ap_apply_item]
  split
  · split <;> rfl
  · split <;> rfl

/-- `ap_apply_item` never writes the last-sender debug register. -/
lemma ap_apply_item_debugLastSender (id : Nat) (s : APState) :
    (ap_apply_item id s).debugLastSender = s.debugLastSender := by
  simp only [ap_apply_item]
  split
  · split <;> rfl
  · split <;> rfl

/-- The game-state outputs of `ap_apply_item` depend only on its
game-state inputs (`lives`, `shardFlags`, `shardBitfieldMirror`). -/
lemma ap_apply_item_game_congr (id : Nat) (s t : APState)
    (hl : t.lives = s.lives) (hf : t.shardFlags = s.shardFlags)
    (hm : t.shardBitfieldMirror = s.shardBitfieldMirror) :
    (ap_apply_item id t).lives = (ap_apply_item id s).lives ∧
    (ap_apply_item id t).shardFlags = (ap_apply_item id s).shardFlags ∧
    (ap_apply_item id t).shardBitfieldMirror = (ap_apply_item id s).shardBitfieldMirror := by
  simp only [ap_apply_item]
  by_cases h1 : id = KIRBY_BASE_OFFSET + 1
  · simp only [if_pos h1, hl]
    by_cases h2 : s.lives < 255 <;> simp [h2, hl, hf, hm]
  · simp only [if_neg h1]
    by_cases h2 : KIRBY_BASE_OFFSET + 2 ≤ id ∧ id ≤ KIRBY_BASE_OFFSET + 9
    · simp [if_pos h2, hl, hf, hm]
    · simp [if_neg h2, hl, hf, hm]

/-- For `i < 8`, item `BaseOffset+2+i` takes the shard branch with mask
`2 ^ i`: the computed `(uint8_t)(1u << shard_index)` equals `2 ^ i`. -/
lemma ap_apply_item_shard_eq (i : Nat) (hi : i < 8) (s : APState) :
    ap_apply_item (KIRBY_BASE_OFFSET + 2 + i) s =
      { s with
        shardBitfieldMirror := s.shardBitfieldMirror ||| 2 ^ i,
        shardFlags := s.shardFlags ||| 2 ^ i } := by
  have hmask : (1 <<< (KIRBY_BASE_OFFSET + 2 + i - (KIRBY_BASE_OFFSET + 2))) % UINT8_MOD
      = 2 ^ i := by
    have h1 : KIRBY_BASE_OFFSET + 2 + i - (KIRBY_BASE_OFFSET + 2) = i := by omega
    have h2 : (2 : Nat) ^ i < 2 ^ 8 := Nat.pow_lt_pow_right one_lt_two hi
    rw [h1, Nat.shiftLeft_eq, one_mul, Nat.mod_eq_of_lt (by simpa [UINT8_MOD] using h2)]
  simp only [ap_apply_item, if_neg (by omega : ¬ KIRBY_BASE_OFFSET + 2 + i = KIRBY_BASE_OFFSET + 1),
    if_pos (⟨by omega, by omega⟩ : KIRBY_BASE_OFFSET + 2 ≤ KIRBY_BASE_OFFSET + 2 + i ∧
      KIRBY_BASE_OFFSET + 2 + i ≤ KIRBY_BASE_OFFSET + 9), hmask]

/-! ### Claims about `ap_apply_item` -/

/-- Claim C4: for every value `L` of `Lives` (any byte value), applying
item `BaseOffset+1` sets `Lives` to `L+1` when `L < 255` and leaves it at
`255` when `L = 255`; the other game-state fields (`ShardFlags` and the
shard mirror) are unchanged. -/
theorem apply_extra_life_saturating (s : APState) (h : s.lives ≤ 255) :
    (s.lives < 255 → (ap_apply_item (KIRBY_BASE_OFFSET + 1) s).lives = s.lives + 1) ∧
    (s.lives = 255 → (ap_apply_item (KIRBY_BASE_OFFSET + 1) s).lives = 255) ∧
    (ap_apply_item (KIRBY_BASE_OFFSET + 1) s).shardFlags = s.shardFlags ∧
    (ap_apply_item (KIRBY_BASE_OFFSET + 1) s).shardBitfieldMirror = s.shardBitfieldMirror := by
  by_cases hl : s.lives < 255 <;> simp [ap_apply_item, hl, UINT8_MOD]
  omega

/-- Witness for C4 at `Lives = 3` and at `Lives = 255`. -/
theorem apply_extra_life_saturating_witness :
    (ap_apply_item (KIRBY_BASE_OFFSET + 1) ⟨0, 0, 0, 0, 0, 0, 0, 0, 3⟩).lives = 3 + 1 ∧
    (ap_apply_item (KIRBY_BASE_OFFSET + 1) ⟨0, 0, 0, 0, 0, 0, 0, 0, 255⟩).lives = 255 :=
  ⟨(apply_extra_life_saturating ⟨0, 0, 0, 0, 0, 0, 0, 0, 3⟩ (by decide)).1 (by decide),
   (apply_extra_life_saturating ⟨0, 0, 0, 0, 0, 0, 0, 0, 255⟩ (by decide)).2.1 (by decide)⟩

/-- Claim C5: for every `i` in `0..7` and every starting state, item
`BaseOffset+2+i` sets bit `i` of `ShardFlags`, leaves every other bit of
`ShardFlags` unchanged, and applying the same identifier a second time
yields the same `ShardFlags` as applying it once. -/
theorem apply_shard_sets_bit_idempotent (i : Nat) (s : APState) (hi : i < 8) :
    (ap_apply_item (KIRBY_BASE_OFFSET + 2 + i) s).shardFlags.testBit i = true ∧
    (∀ j, j ≠ i → (ap_apply_item (KIRBY_BASE_OFFSET + 2 + i) s).shardFlags.testBit j
        = s.shardFlags.testBit j) ∧
    (ap_apply_item (KIRBY_BASE_OFFSET + 2 + i)
        (ap_apply_item (KIRBY_BASE_OFFSET + 2 + i) s)).shardFlags
      = (ap_apply_item (KIRBY_BASE_OFFSET + 2 + i) s).shardFlags := by
  rw [ap_apply_item_shard_eq i hi, ap_apply_item_shard_eq i hi]
  refine ⟨?_, ?_, ?_⟩
  · simp [Nat.testBit_or, Nat.testBit_two_pow_self]
  · intro j hj
    simp [Nat.testBit_or, Nat.testBit_two_pow_of_ne (fun h => hj h.symm)]
  · simp [Nat.or_assoc, Nat.or_self]

/-- Witness for C5 at `i = 0` on the all-zero state. -/
theorem apply_shard_sets_bit_idempotent_witness :
    (ap_apply_item (KIRBY_BASE_OFFSET + 2 + 0) ⟨0, 0, 0, 0, 0, 0, 0, 0, 0⟩).shardFlags.testBit 0
      = true ∧
    (ap_apply_item (KIRBY_BASE_OFFSET + 2 + 0) ⟨0, 0, 0, 0, 0, 0, 0, 0, 0⟩).shardFlags.testBit 5
      = (⟨0, 0, 0, 0, 0, 0, 0, 0, 0⟩ : APState).shardFlags.testBit 5 :=
  ⟨(apply_shard_sets_bit_idempotent 0 ⟨0, 0, 0, 0, 0, 0, 0, 0, 0⟩ (by decide)).1,
   (apply_shard_sets_bit_idempotent 0 ⟨0, 0, 0, 0, 0, 0, 0, 0, 0⟩ (by decide)).2.1 5 (by decide)⟩

/-- Claim C6: every item identifier outside `[BaseOffset+1, BaseOffset+9]`
leaves the whole state unchanged: `ap_apply_item` is the identity there,
raising no error condition. -/
theorem apply_unrecognized_noop (id : Nat) (s : APState)
    (h : id < KIRBY_BASE_OFFSET + 1 ∨ KIRBY_BASE_OFFSET + 9 < id) :
    ap_apply_item id s = s := by
  simp only [ap_apply_item,
    if_neg (by omega : ¬ id = KIRBY_BASE_OFFSET + 1),
    if_neg (by omega : ¬ (KIRBY_BASE_OFFSET + 2 ≤ id ∧ id ≤ KIRBY_BASE_OFFSET + 9))]

/-- Witness for C6 at the unrecognized identifier `999999` from the
spec scenario. -/
theorem apply_unrecognized_noop_witness :
    ap_apply_item 999999 ⟨0, 0, 0, 0, 0, 0, 0, 7, 3⟩ = ⟨0, 0, 0, 0, 0, 0, 0, 7, 3⟩ :=
  apply_unrecognized_noop 999999 ⟨0, 0, 0, 0, 0, 0, 0, 7, 3⟩ (Or.inl (by decide))

/-- `ap_apply_item` never lowers `Lives`. -/
lemma ap_apply_item_lives_mono (id : Nat) (s : APState) :
    s.lives ≤ (ap_apply_item id s).lives := by
  simp only [ap_apply_item]
  split
  · split
    · simp only [UINT8_MOD]; omega
    · exact le_refl _
  · split
    · exact le_refl _
    · exact le_refl _

/-- `ap_apply_item` never clears a bit of `ShardFlags`. -/
lemma ap_apply_item_shardFlags_mono (id : Nat) (s : APState) (i : Nat)
    (h : s.shardFlags.testBit i = true) :
    (ap_apply_item id s).shardFlags.testBit i = true := by
  simp only [ap_apply_item]
  split
  · split <;> exact h
  · split
    · simp [Nat.testBit_or, h]
    · exact h

/-- Claim C7: across any `ap_apply_item` call with any identifier and any
`ap_poll_mailbox_c` call from any state, every bit set in `ShardFlags`
beforehand is still set afterwards, and `Lives` never decreases. -/
theorem subsystem_monotone (id : Nat) (s : APState) (i : Nat) :
    (s.shardFlags.testBit i = true → (ap_apply_item id s).shardFlags.testBit i = true) ∧
    s.lives ≤ (ap_apply_item id s).lives ∧
    (s.shardFlags.testBit i = true → (ap_poll_mailbox_c s).shardFlags.testBit i = true) ∧
    s.lives ≤ (ap_poll_mailbox_c s).lives := by
  refine ⟨ap_apply_item_shardFlags_mono id s i, ap_apply_item_lives_mono id s, ?_, ?_⟩ <;>
    simp only [ap_poll_mailbox_c]
  · split
    · exact fun h => h
    · exact fun h => ap_apply_item_shardFlags_mono _ _ i h
  · split
    · exact le_refl _
    · exact ap_apply_item_lives_mono s.itemID
        { s with debugHeartbeat := (s.debugHeartbeat + 1) % UINT32_MOD,
                 debugLastItemID := s.itemID, debugLastSender := s.senderID }

/-- Witness for C7 at a concrete state with bit 2 set and `Lives = 9`. -/
theorem subsystem_monotone_witness :
    (ap_apply_item (KIRBY_BASE_OFFSET + 3) ⟨0, 1, 0, 0, 0, 0, 0, 4, 9⟩).shardFlags.testBit 2
      = true ∧
    (ap_poll_mailbox_c ⟨0, 1, 0, 0, 0, 0, 0, 4, 9⟩).shardFlags.testBit 2 = true :=
  ⟨(subsystem_monotone (KIRBY_BASE_OFFSET + 3) ⟨0, 1, 0, 0, 0, 0, 0, 4, 9⟩ 2).1 (by decide),
   (subsystem_monotone (KIRBY_BASE_OFFSET + 3) ⟨0, 1, 0, 0, 0, 0, 0, 4, 9⟩ 2).2.2.1 (by decide)⟩

/-- Counterexample to claim C8 as stated: dispatch is not idempotent for
the extra-life item. From `Lives = 0`, delivering `BaseOffset+1` twice
gives `Lives = 2`, not the `Lives = 1` that one delivery gives. -/
theorem apply_extra_life_not_idempotent :
    ap_apply_item (KIRBY_BASE_OFFSET + 1)
        (ap_apply_item (KIRBY_BASE_OFFSET + 1) ⟨0, 0, 0, 0, 0, 0, 0, 0, 0⟩)
      ≠ ap_apply_item (KIRBY_BASE_OFFSET + 1) ⟨0, 0, 0, 0, 0, 0, 0, 0, 0⟩ := by
  decide

/-- Claim C8, amended: dispatch is idempotent per item type for every item
identifier other than the extra-life identifier `BaseOffset+1` (all shard
items and all unrecognized items); redelivery of those is harmless. The
extra-life item instead increments `Lives` on each delivery until it
saturates at 255. -/
theorem apply_idempotent_except_life (id : Nat) (s : APState)
    (h : id ≠ KIRBY_BASE_OFFSET + 1) :
    ap_apply_item id (ap_apply_item id s) = ap_apply_item id s := by
  by_cases h2 : KIRBY_BASE_OFFSET + 2 ≤ id ∧ id ≤ KIRBY_BASE_OFFSET + 9
  · obtain ⟨i, hi, rfl⟩ : ∃ i, i < 8 ∧ id = KIRBY_BASE_OFFSET + 2 + i :=
      ⟨id - (KIRBY_BASE_OFFSET + 2), by omega, by omega⟩
    rw [ap_apply_item_shard_eq i hi, ap_apply_item_shard_eq i hi]
    simp [Nat.or_assoc, Nat.or_self]
  · simp only [ap_apply_item, if_neg h, if_neg h2]

/-- Witness for the amended C8 at a shard item and at an unrecognized
item. -/
theorem apply_idempotent_except_life_witness :
    ap_apply_item (KIRBY_BASE_OFFSET + 5)
        (ap_apply_item (KIRBY_BASE_OFFSET + 5) ⟨0, 0, 0, 0, 0, 0, 0, 0, 3⟩)
      = ap_apply_item (KIRBY_BASE_OFFSET + 5) ⟨0, 0, 0, 0, 0, 0, 0, 0, 3⟩ ∧
    ap_apply_item 999999 (ap_apply_item 999999 ⟨0, 0, 0, 0, 0, 0, 0, 0, 3⟩)
      = ap_apply_item 999999 ⟨0, 0, 0, 0, 0, 0, 0, 0, 3⟩ :=
  ⟨apply_idempotent_except_life (KIRBY_BASE_OFFSET + 5) ⟨0, 0, 0, 0, 0, 0, 0, 0, 3⟩ (by decide),
   apply_idempotent_except_life 999999 ⟨0, 0, 0, 0, 0, 0, 0, 0, 3⟩ (by decide)⟩

/-! ### Unfolding lemmas for `ap_poll_mailbox_c` -/

/-- When the pending flag is not exactly 1, `ap_poll_mailbox_c` returns
at once and the whole state is unchanged. -/
lemma ap_poll_mailbox_c_idle (s : APState) (h : s.pendingFlag ≠ 1) :
    ap_poll_mailbox_c s = s := by
  simp only [ap_poll_mailbox_c, if_pos h]

/-- When the pending flag is exactly 1, one `ap_poll_mailbox_c` call
bumps the heartbeat, snapshots `itemID`/`senderID` into the debug
registers, dispatches `ap_apply_item` on the item, and clears the flag. -/
lemma ap_poll_mailbox_c_pending (s : APState) (h : s.pendingFlag = 1) :
    ap_poll_mailbox_c s =
      { ap_apply_item s.itemID
          { s with
            debugHeartbeat := (s.debugHeartbeat + 1) % UINT32_MOD,
            debugLastItemID := s.itemID,
            debugLastSender := s.senderID } with
        pendingFlag := 0 } := by
  simp only [ap_poll_mailbox_c, if_neg (not_not_intro h)]

/-! ### Claims about `ap_poll_mailbox_c` -/

/-- Counterexample to claim C1 as stated: from a starting state whose
`PendingFlag` holds the nonzero non-1 word 2, `poll()` returns at the
flag check and the flag is still 2 — not false — afterwards. -/
theorem poll_flag_two_not_cleared :
    (ap_poll_mailbox_c ⟨0, 2, 0, 0, 0, 0, 0, 0, 0⟩).pendingFlag ≠ 0 := by
  decide

/-- Claim C1, amended: after any `poll()` call whose starting
`PendingFlag` is boolean-valued (0 or 1), `PendingFlag` is false; in the
pending case the poller writes `PendingFlag = 0` unconditionally after
dispatch, including when the item identifier matched nothing. (A
starting `PendingFlag` outside {0, 1} is returned unchanged.) -/
theorem poll_clears_boolean_flag (s : APState) (h : s.pendingFlag ≤ 1) :
    (ap_poll_mailbox_c s).pendingFlag = 0 := by
  by_cases h1 : s.pendingFlag = 1
  · rw [ap_poll_mailbox_c_pending s h1]
  · rw [ap_poll_mailbox_c_idle s h1]
    omega

/-- Witness for the amended C1: a pending message carrying an item
identifier that matches nothing still gets its flag cleared. -/
theorem poll_clears_boolean_flag_witness :
    (ap_poll_mailbox_c ⟨0, 1, 999999, 7, 0, 0, 0, 0, 3⟩).pendingFlag = 0 :=
  poll_clears_boolean_flag ⟨0, 1, 999999, 7, 0, 0, 0, 0, 3⟩ (by decide)

/-- Counterexample to claim C2 as stated: from a starting state with
`PendingFlag = 0`, `poll()` returns before the heartbeat line, so
`DebugHeartbeat` is not incremented. -/
theorem poll_idle_heartbeat_not_incremented :
    ¬ ((ap_poll_mailbox_c ⟨0, 0, 0, 0, 0, 0, 0, 0, 0⟩).debugHeartbeat
        = (⟨0, 0, 0, 0, 0, 0, 0, 0, 0⟩ : APState).debugHeartbeat + 1) := by
  decide

/-- Claim C2, amended: a `poll()` call increments `DebugHeartbeat` by
exactly 1 (as a 32-bit word, i.e. modulo 2^32) only when it finds
`PendingFlag = 1`; when `PendingFlag` is any other value the early
return skips the heartbeat and `DebugHeartbeat` is unchanged. -/
theorem poll_heartbeat_increment_iff_pending (s : APState) :
    (s.pendingFlag = 1 →
      (ap_poll_mailbox_c s).debugHeartbeat = (s.debugHeartbeat + 1) % UINT32_MOD) ∧
    (s.pendingFlag ≠ 1 → (ap_poll_mailbox_c s).debugHeartbeat = s.debugHeartbeat) := by
  constructor
  · intro h
    rw [ap_poll_mailbox_c_pending s h]
    exact (ap_apply_item_debugHeartbeat _ _).trans rfl
  · intro h
    rw [ap_poll_mailbox_c_idle s h]

/-- Witness for the amended C2 in both the pending and the idle case. -/
theorem poll_heartbeat_increment_iff_pending_witness :
    (ap_poll_mailbox_c ⟨0, 1, 0, 0, 41, 0, 0, 0, 0⟩).debugHeartbeat = (41 + 1) % UINT32_MOD ∧
    (ap_poll_mailbox_c ⟨0, 0, 0, 0, 41, 0, 0, 0, 0⟩).debugHeartbeat = 41 :=
  ⟨(poll_heartbeat_increment_iff_pending ⟨0, 1, 0, 0, 41, 0, 0, 0, 0⟩).1 rfl,
   (poll_heartbeat_increment_iff_pending ⟨0, 0, 0, 0, 41, 0, 0, 0, 0⟩).2 (by decide)⟩

/-- Claim C3: when a `poll()` call starts with `PendingFlag = 1`, it ends
with `DebugLastItemID` equal to the mailbox `ItemID`, `DebugLastSender`
equal to the mailbox `SenderID`, and the game state (`Lives`,
`ShardFlags`, `ShardBitfieldMirror`) equal to the result of applying
`ap_apply_item` to that `ItemID` on the prior game state. -/
theorem poll_pending_ingest_dispatch (s : APState) (h : s.pendingFlag = 1) :
    (ap_poll_mailbox_c s).debugLastItemID = s.itemID ∧
    (ap_poll_mailbox_c s).debugLastSender = s.senderID ∧
    (ap_poll_mailbox_c s).lives = (ap_apply_item s.itemID s).lives ∧
    (ap_poll_mailbox_c s).shardFlags = (ap_apply_item s.itemID s).shardFlags ∧
    (ap_poll_mailbox_c s).shardBitfieldMirror = (ap_apply_item s.itemID s).shardBitfieldMirror := by
  rw [ap_poll_mailbox_c_pending s h]
  obtain ⟨hl, hf, hm⟩ := ap_apply_item_game_congr s.itemID s
    { s with
      debugHeartbeat := (s.debugHeartbeat + 1) % UINT32_MOD,
      debugLastItemID := s.itemID,
      debugLastSender := s.senderID } rfl rfl rfl
  exact ⟨(ap_apply_item_debugLastItemID _ _).trans rfl,
    (ap_apply_item_debugLastSender _ _).trans rfl, hl, hf, hm⟩

/-- Witness for C3: a pending shard item `BaseOffset+4` is ingested and
dispatched. -/
theorem poll_pending_ingest_dispatch_witness :
    (ap_poll_mailbox_c ⟨0, 1, 3860004, 7, 0, 0, 0, 0, 3⟩).debugLastItemID = 3860004 ∧
    (ap_poll_mailbox_c ⟨0, 1, 3860004, 7, 0, 0, 0, 0, 3⟩).shardFlags
      = (ap_apply_item 3860004 ⟨0, 1, 3860004, 7, 0, 0, 0, 0, 3⟩).shardFlags :=
  ⟨(poll_pending_ingest_dispatch ⟨0, 1, 3860004, 7, 0, 0, 0, 0, 3⟩ rfl).1,
   (poll_pending_ingest_dispatch ⟨0, 1, 3860004, 7, 0, 0, 0, 0, 3⟩ rfl).2.2.2.1⟩

/-- Claim C9: `poll()` consumes a message only when `PendingFlag` is
exactly 1; for every other value (including nonzero words such as 2) it
returns immediately with the entire state — every mailbox register and
every game-state byte — unchanged. -/
theorem poll_noop_unless_flag_one (s : APState) (h : s.pendingFlag ≠ 1) :
    ap_poll_mailbox_c s = s :=
  ap_poll_mailbox_c_idle s h

/-- Witness for C9 at `PendingFlag = 2`. -/
theorem poll_noop_unless_flag_one_witness :
    ap_poll_mailbox_c ⟨10, 2, 3860001, 7, 5, 6, 8, 9, 3⟩ = ⟨10, 2, 3860001, 7, 5, 6, 8, 9, 3⟩ :=
  poll_noop_unless_flag_one ⟨10, 2, 3860001, 7, 5, 6, 8, 9, 3⟩ (by decide)

/-- Claim C10: `ap_apply_item` modifies at most `Lives`, `ShardFlags` and
`ShardBitfieldMirror`: it never writes `PendingFlag`, `ItemID`,
`SenderID`, `DebugHeartbeat`, `DebugLastItemID` or `DebugLastSender`;
and on a shard-range identifier it ORs one and the same single-bit mask
(`2 ^ i` with `i < 8`, hence confined to the low byte) into both
`ShardFlags` and `ShardBitfieldMirror`. -/
theorem apply_frame_and_shard_mask (id : Nat) (s : APState) :
    (ap_apply_item id s).pendingFlag = s.pendingFlag ∧
    (ap_apply_item id s).itemID = s.itemID ∧
    (ap_apply_item id s).senderID = s.senderID ∧
    (ap_apply_item id s).debugHeartbeat = s.debugHeartbeat ∧
    (ap_apply_item id s).debugLastItemID = s.debugLastItemID ∧
    (ap_apply_item id s).debugLastSender = s.debugLastSender ∧
    (KIRBY_BASE_OFFSET + 2 ≤ id → id ≤ KIRBY_BASE_OFFSET + 9 →
      ∃ i, i < 8 ∧
        (ap_apply_item id s).shardFlags = s.shardFlags ||| 2 ^ i ∧
        (ap_apply_item id s).shardBitfieldMirror = s.shardBitfieldMirror ||| 2 ^ i ∧
        (2 : Nat) ^ i < 256) := by
  refine ⟨ap_apply_item_pendingFlag id s, ap_apply_item_itemID id s,
    ap_apply_item_senderID id s, ap_apply_item_debugHeartbeat id s,
    ap_apply_item_debugLastItemID id s, ap_apply_item_debugLastSender id s, ?_⟩
  intro h1 h2
  obtain ⟨i, hi, rfl⟩ : ∃ i, i < 8 ∧ id = KIRBY_BASE_OFFSET + 2 + i :=
    ⟨id - (KIRBY_BASE_OFFSET + 2), by omega, by omega⟩
  have h3 : (2 : Nat) ^ i < 2 ^ 8 := Nat.pow_lt_pow_right one_lt_two hi
  refine ⟨i, hi, ?_, ?_, by norm_num at h3 ⊢; exact h3⟩
  · rw [ap_apply_item_shard_eq i hi]
  · rw [ap_apply_item_shard_eq i hi]

/-- Witness for C10 at the shard item `BaseOffset+2` on a concrete
state: the mailbox registers are untouched and the shard mask goes into
both `ShardFlags` and the mirror. -/
theorem apply_frame_and_shard_mask_witness :
    (ap_apply_item 3860002 ⟨16, 1, 3860002, 7, 5, 6, 8, 2, 3⟩).pendingFlag
      = (⟨16, 1, 3860002, 7, 5, 6, 8, 2, 3⟩ : APState).pendingFlag ∧
    (∃ i, i < 8 ∧
      (ap_apply_item 3860002 ⟨16, 1, 3860002, 7, 5, 6, 8, 2, 3⟩).shardFlags
        = (⟨16, 1, 3860002, 7, 5, 6, 8, 2, 3⟩ : APState).shardFlags ||| 2 ^ i ∧
      (ap_apply_item 3860002 ⟨16, 1, 3860002, 7, 5, 6, 8, 2, 3⟩).shardBitfieldMirror
        = (⟨16, 1, 3860002, 7, 5, 6, 8, 2, 3⟩ : APState).shardBitfieldMirror ||| 2 ^ i ∧
      (2 : Nat) ^ i < 256) :=
  ⟨(apply_frame_and_shard_mask 3860002 ⟨16, 1, 3860002, 7, 5, 6, 8, 2, 3⟩).1,
   (apply_frame_and_shard_mask 3860002 ⟨16, 1, 3860002, 7, 5, 6, 8, 2, 3⟩).2.2.2.2.2.2
     (by decide) (by decide)⟩
